/-
Verification of the CiRL ODE simulation scripts.

The repository contains three independent scripts, each of which defines a
set of literal constants, an initial state vector, a vector-valued
derivative function, integrates it with `scipy.integrate.odeint` over
`np.linspace(0, t_final, 1000)`, and plots the columns of the result.

This file shallowly embeds the three derivative functions and their
constants, generically over a field (instantiated at `ℚ` for decidable
facts and at `ℝ` for calculus facts), the reporting mesh
(`np.linspace`), and the scripts' handling of the solver's full output.
-/
import Mathlib

open Set

namespace TransportTruck

/-- `t_final = 15` (Truck_odeint.py). -/
def t_final : ℚ := 15

section
variable {K : Type} [Field K]

/-- `m_truck = 3000`. -/
def m_truck : K := 3000

/-- `m_u = 210`. -/
def m_u : K := 210

/-- `m_total = m_truck + m_u`. -/
def m_total : K := m_truck + m_u

/-- `position_ini = 0`. -/
def position_ini : K := 0

/-- `speed_ini = 4`. -/
def speed_ini : K := 4

/-- `X_ini = np.array([position_ini, speed_ini])`. -/
def X_ini : Fin 2 → K := ![position_ini, speed_ini]

/-- `F = 4000`. -/
def F : K := 4000

/-- `def transportTruck(X, t=0): return np.array([X[1], F/m_total])`. -/
def transportTruck (X : Fin 2 → K) (t : K) : Fin 2 → K :=
  ![X 1, F / m_total]

end

end TransportTruck

namespace MicroalgaeDroop

/-- `t_final = 15` (MicroalgaeDroop_odeint.py). -/
def t_final : ℚ := 15

section
variable {K : Type} [Field K]

/-- `K_sI = 0`. -/
def K_sI : K := 0

/-- `K_iI = 295`. -/
def K_iI : K := 295

/-- `mu_tilde = 1.7`. -/
def mu_tilde : K := 17 / 10

/-- `k_q = 1.7`. -/
def k_q : K := 17 / 10

/-- `K_S = 0.1`. -/
def K_S : K := 1 / 10

/-- `rho_max = 9.40`. -/
def rho_max : K := 94 / 10

/-- `T_h = 1/0.45`. -/
def T_h : K := 1 / (45 / 100)

/-- `S_in = 100`. -/
def S_in : K := 100

/-- `K_CO2 = 0.3`. -/
def K_CO2 : K := 3 / 10

/-- `I_bar = 50`. -/
def I_bar : K := 50

/-- `X_ALG_ini = 26`. -/
def X_ALG_ini : K := 26

/-- `Q_ini = 2.82`. -/
def Q_ini : K := 141 / 50

/-- `S_ini = 0`. -/
def S_ini : K := 0

/-- `X_ini = np.array([X_ALG_ini, Q_ini, S_ini])`. -/
def X_ini : Fin 3 → K := ![X_ALG_ini, Q_ini, S_ini]

/-- `I = I_bar`. -/
def I : K := I_bar

/-- `def microalgaeDroop(X, t=0)` with
`mu = mu_tilde*(I/(I+K_sI+(I**2/K_iI)))*(1-k_q/X[1])`,
`rho = rho_max*(X[2]/(X[2]+K_S))`, returning
`[mu*X[0] - (1/T_h)*X[0], rho - mu*X[1], (1/T_h)*(S_in - X[2]) - rho*X[0]]`. -/
def microalgaeDroop (X : Fin 3 → K) (t : K) : Fin 3 → K :=
  let mu := mu_tilde * (I / (I + K_sI + (I ^ 2 / K_iI))) * (1 - k_q / X 1)
  let rho := rho_max * (X 2 / (X 2 + K_S))
  ![mu * X 0 - (1 / T_h) * X 0,
    rho - mu * X 1,
    (1 / T_h) * (S_in - X 2) - rho * X 0]

/-- The debugging diagnostic of the script, `S + X_ALG*Q`, read off a state
vector: `X 2 + X 0 * X 1`. -/
def droopDiag (X : Fin 3 → K) : K := X 2 + X 0 * X 1

/-- The directional derivative of `droopDiag` along the `microalgaeDroop`
vector field: the gradient of `S + X_ALG*Q` is `(Q, X_ALG, 1)`, so the
directional derivative is `f_2 + f_0 * Q + X_ALG * f_1` where `f` is the
vector field. -/
def droopDiagDot (X : Fin 3 → K) : K :=
  microalgaeDroop X 0 2 + microalgaeDroop X 0 0 * X 1 + X 0 * microalgaeDroop X 0 1

end

end MicroalgaeDroop

namespace Incinerator

/-- `t_final = 3*60` (Incinerator_odeint.py). -/
def t_final : ℚ := 3 * 60

section
variable {K : Type} [Field K]

/-- `F_in = 100`. -/
def F_in : K := 100

/-- `F_out = 10`. -/
def F_out : K := 10

/-- `R_w = 70`. -/
def R_w : K := 70

/-- `F_char_out = 2`. -/
def F_char_out : K := 2

/-- `P_char = 6`. -/
def P_char : K := 6

/-- `R_char = 3`. -/
def R_char : K := 3

/-- `c_p_w = 1`. -/
def c_p_w : K := 1

/-- `F_aI = 5`. -/
def F_aI : K := 5

/-- `c_p_g = 5`. -/
def c_p_g : K := 5

/-- `T_aI = 20`. -/
def T_aI : K := 20

/-- `Q = 100`. -/
def Q : K := 100

/-- `c_p_char = 1`. -/
def c_p_char : K := 1

/-- The FIRST module-level assignment `c_p_m = 25` (line 52 of the script,
in the "For eq. 3" block). It is shadowed by the later assignment
`c_p_m = 5` before `incinerator` is defined or called, so this value is
never read by the derivative function. -/
def c_p_m_first : K := 25

/-- `M_grate = 500`. -/
def M_grate : K := 500

/-- `F_g_w_out = 2`. -/
def F_g_w_out : K := 2

/-- `R_g = 1`. -/
def R_g : K := 1

/-- `F_g_out = 2`. -/
def F_g_out : K := 2

/-- `F_aII = 3`. -/
def F_aII : K := 3

/-- The SECOND module-level assignment `c_p_m = 5` (line 61 of the script,
in the "For eq. 6" block). Python rebinds the module-level name, so this
is the value of `c_p_m` in effect when `incinerator` executes; both
energy-balance denominators read it. -/
def c_p_m : K := 5

/-- `M_f_b = 120`. -/
def M_f_b : K := 120

/-- `T_aII = 20`. -/
def T_aII : K := 20

/-- `Q_g = 450`. -/
def Q_g : K := 450

/-- `M_ini = 0`. -/
def M_ini : K := 0

/-- `M_char_ini = 0`. -/
def M_char_ini : K := 0

/-- `T_w_ini = 20`. -/
def T_w_ini : K := 20

/-- `M_g_w_ini = 0`. -/
def M_g_w_ini : K := 0

/-- `M_g_f_ini = 0`. -/
def M_g_f_ini : K := 0

/-- `T_g_ini = 20`. -/
def T_g_ini : K := 20

/-- `X_ini = np.array([M_ini, M_char_ini, T_w_ini, M_g_w_ini, M_g_f_ini, T_g_ini])`. -/
def X_ini : Fin 6 → K :=
  ![M_ini, M_char_ini, T_w_ini, M_g_w_ini, M_g_f_ini, T_g_ini]

/-- `Q_ext = 40`. -/
def Q_ext : K := 40

/-- `def incinerator(X, t=0)`, returning the six component rates of the
mass/energy balances exactly as written in the script. -/
def incinerator (X : Fin 6 → K) (t : K) : Fin 6 → K :=
  ![F_in - F_out - R_w,
    -F_char_out + P_char - R_char,
    (F_in * c_p_w * X 2 + F_aI * c_p_g * (T_aI - X 2) + Q) /
      (c_p_w * X 0 + c_p_char * X 1 + c_p_m * M_grate),
    F_aI - F_g_w_out + R_g,
    F_g_w_out - F_g_out + F_aII,
    (F_g_w_out * c_p_g * (X 2 - X 5) + F_aII * c_p_g * (T_aII - X 5) + Q_g - Q_ext) /
      (c_p_g * X 4 + c_p_m * M_f_b)]

end

end Incinerator

/-- `np.linspace(a, b, n)` with the default `endpoint=True`: the `n` points
`a + (b - a) * i / (n - 1)` for `i = 0, ..., n-1`. -/
def linspaceF (a b : ℚ) (n : ℕ) (i : ℕ) : ℚ :=
  a + (b - a) * i / ((n : ℚ) - 1)

/-- The reporting mesh as a list, `np.linspace(a, b, n)`. -/
def linspace (a b : ℚ) (n : ℕ) : List ℚ :=
  (List.range n).map (linspaceF a b n)

/-- The trajectory returned by an exact solver: the solution of the initial
value problem sampled at the reporting mesh, one state-vector sample per
mesh time. -/
def sampleTraj {α : Type} (sol : ℚ → α) (mesh : List ℚ) : List α :=
  mesh.map sol

/-- An incinerator state at which the wastebed heat-capacity denominator
`c_p_w*X 0 + c_p_char*X 1 + c_p_m*M_grate = X 0 + X 1 + 2500` vanishes:
`X 0 + X 1 = -2500`. -/
def badIncinState : Fin 6 → ℚ := ![-2500, 0, 20, 0, 0, 20]

/-- A Droop state with `Q = X 1 = 0`, where `microalgaeDroop` divides by
`X 1` in the term `k_q / X 1`. -/
def badDroopStateQ : Fin 3 → ℚ := ![26, 0, 0]

/-- A Droop state with `S = X 2 = -0.1`, where the divisor `X 2 + K_S` of
`microalgaeDroop` vanishes. -/
def badDroopStateS : Fin 3 → ℚ := ![26, 141 / 50, -1 / 10]

/-- Modelled from the spec: the spec's collaborator contract
(`solve(f, x0, t_mesh, max_internal_steps) -> (trajectory, diagnostics)`)
for `scipy.integrate.odeint` called with `full_output = True`, whose own
documented behavior on an `mxstep` overrun is to emit a warning and return
the array together with an infodict whose `message` field reports the
status -- it raises no exception. The solver itself is an external library,
not part of this repository's sources. -/
structure OdeintFullOutput (σ : Type) : Type where
  trajectory : List σ
  message : String

/-- The `infodict['message']` value of a successful `odeint` run. -/
def successMessage : String := "Integration successful."

/-- The `infodict['message']` value when the internal step count exceeds
`mxstep` for some reporting subinterval. -/
def excessWorkMessage : String :=
  "Excess work done on this call (perhaps wrong Dfun type)."

/-- The scripts' handling of the solver result (e.g. Incinerator_odeint.py:
`X, infodict = integrate.odeint(...)` followed by
`waste_mass, ... = X.T` and a plot of each column): the plotted series are
the columns of the trajectory array; `infodict` is never read again. -/
def plottedColumns {n : ℕ} (out : OdeintFullOutput (Fin n → ℚ)) : Fin n → List ℚ :=
  fun i => out.trajectory.map (fun row => row i)

/-- A solver result whose step ceiling was exceeded: the diagnostics carry
the excess-work message, and the (unreliable) trajectory array is still
present. -/
def overrunOutput : OdeintFullOutput (Fin 6 → ℚ) :=
  ⟨[Incinerator.X_ini], excessWorkMessage⟩

/-- C8: all three derivative functions are autonomous: each takes a time
argument but its output depends only on the state (and the constants), so
evaluating at any two times gives the same rate vector. -/
theorem derivative_functions_autonomous :
    (∀ (X : Fin 6 → ℚ) (t1 t2 : ℚ),
      Incinerator.incinerator X t1 = Incinerator.incinerator X t2) ∧
    (∀ (X : Fin 3 → ℚ) (t1 t2 : ℚ),
      MicroalgaeDroop.microalgaeDroop X t1 = MicroalgaeDroop.microalgaeDroop X t2) ∧
    (∀ (X : Fin 2 → ℚ) (t1 t2 : ℚ),
      TransportTruck.transportTruck X t1 = TransportTruck.transportTruck X t2) :=
  ⟨fun _ _ _ => rfl, fun _ _ _ => rfl, fun _ _ _ => rfl⟩

/-- C6: the script assigns `c_p_m` twice (25, then 5); `incinerator` reads
the final value 5 in both energy-balance denominators, so the wastebed
heat-capacity denominator is `X 0 + X 1 + 2500` (not `X 0 + X 1 + 12500`),
the freeboard denominator is `5 * X 4 + 600`, and at `X_ini` the
wastebed-temperature derivative is `(100*1*20 + 5*5*(20-20) + 100)/2500 = 0.84`. -/
theorem c_p_m_shadowing :
    (Incinerator.c_p_m_first : ℚ) = 25 ∧ (Incinerator.c_p_m : ℚ) = 5 ∧
    (∀ X : Fin 6 → ℚ,
      Incinerator.c_p_w * X 0 + Incinerator.c_p_char * X 1 +
        Incinerator.c_p_m * Incinerator.M_grate = X 0 + X 1 + 2500) ∧
    (∀ X : Fin 6 → ℚ,
      Incinerator.c_p_g * X 4 + Incinerator.c_p_m * Incinerator.M_f_b = 5 * X 4 + 600) ∧
    (Incinerator.c_p_m : ℚ) * Incinerator.M_grate = 2500 ∧
    (Incinerator.c_p_m_first : ℚ) * Incinerator.M_grate = 12500 ∧
    Incinerator.incinerator (Incinerator.X_ini (K := ℚ)) 0 2 =
      (100 * 1 * 20 + 5 * 5 * (20 - 20) + 100) / 2500 ∧
    Incinerator.incinerator (Incinerator.X_ini (K := ℚ)) 0 2 = 84 / 100 := by
  refine ⟨rfl, rfl, ?_, ?_, by norm_num [Incinerator.c_p_m, Incinerator.M_grate],
    by norm_num [Incinerator.c_p_m_first, Incinerator.M_grate], ?_, ?_⟩
  · intro X
    simp only [Incinerator.c_p_w, Incinerator.c_p_char, Incinerator.c_p_m, Incinerator.M_grate]
    ring
  · intro X
    simp only [Incinerator.c_p_g, Incinerator.c_p_m, Incinerator.M_f_b]
    ring
  · norm_num [Incinerator.incinerator, Incinerator.X_ini, Incinerator.F_in,
      Incinerator.c_p_w, Incinerator.F_aI, Incinerator.c_p_g, Incinerator.T_aI,
      Incinerator.Q, Incinerator.c_p_char, Incinerator.c_p_m, Incinerator.M_grate,
      Incinerator.M_ini, Incinerator.M_char_ini, Incinerator.T_w_ini]
  · norm_num [Incinerator.incinerator, Incinerator.X_ini, Incinerator.F_in,
      Incinerator.c_p_w, Incinerator.F_aI, Incinerator.c_p_g, Incinerator.T_aI,
      Incinerator.Q, Incinerator.c_p_char, Incinerator.c_p_m, Incinerator.M_grate,
      Incinerator.M_ini, Incinerator.M_char_ini, Incinerator.T_w_ini]

/-- C7: the derivative functions divide without guards and their
denominators can vanish: the incinerator wastebed heat-capacity denominator
`c_p_w*X 0 + c_p_char*X 1 + c_p_m*M_grate` is zero at a state with
`X 0 = -2500, X 1 = 0`; the `microalgaeDroop` divisor `X 1` is zero at
`Q = 0` and the divisor `X 2 + K_S` is zero at `S = -0.1`; while at the
scripts' actual initial states all these denominators (and the truck's
constant divisor `m_total`) are nonzero. -/
theorem unguarded_divisions :
    (Incinerator.c_p_w * badIncinState 0 + Incinerator.c_p_char * badIncinState 1 +
      Incinerator.c_p_m * Incinerator.M_grate = 0) ∧
    (badDroopStateQ 1 = 0) ∧
    (badDroopStateS 2 + MicroalgaeDroop.K_S = 0) ∧
    (Incinerator.c_p_w * Incinerator.X_ini 0 + Incinerator.c_p_char * Incinerator.X_ini 1 +
      Incinerator.c_p_m * Incinerator.M_grate ≠ (0 : ℚ)) ∧
    (Incinerator.c_p_g * Incinerator.X_ini 4 + Incinerator.c_p_m * Incinerator.M_f_b ≠ (0 : ℚ)) ∧
    (MicroalgaeDroop.X_ini 1 ≠ (0 : ℚ)) ∧
    (MicroalgaeDroop.X_ini 2 + MicroalgaeDroop.K_S ≠ (0 : ℚ)) ∧
    (TransportTruck.m_total ≠ (0 : ℚ)) := by
  refine ⟨?_, ?_, ?_, ?_, ?_, ?_, ?_, ?_⟩ <;>
    norm_num [Incinerator.c_p_w, Incinerator.c_p_char, Incinerator.c_p_m,
      Incinerator.M_grate, Incinerator.c_p_g, Incinerator.M_f_b, Incinerator.X_ini,
      Incinerator.M_ini, Incinerator.M_char_ini, Incinerator.M_g_f_ini,
      MicroalgaeDroop.K_S, MicroalgaeDroop.X_ini, MicroalgaeDroop.Q_ini,
      MicroalgaeDroop.S_ini, TransportTruck.m_total, TransportTruck.m_truck,
      TransportTruck.m_u, badIncinState, badDroopStateQ, badDroopStateS]

lemma linspace_length (a b : ℚ) (n : ℕ) : (linspace a b n).length = n := by
  simp [linspace]

lemma linspace_getElem? (a b : ℚ) {n i : ℕ} (h : i < n) :
    (linspace a b n)[i]? = some (linspaceF a b n i) := by
  simp [linspace, List.getElem?_range h]

lemma linspaceF_lt {b : ℚ} (hb : 0 < b) {i j : ℕ} (hij : i < j) :
    linspaceF 0 b 1000 i < linspaceF 0 b 1000 j := by
  simp only [linspaceF, zero_add, sub_zero]
  have h999 : (0 : ℚ) < (1000 : ℚ) - 1 := by norm_num
  have hij' : (i : ℚ) < (j : ℚ) := by exact_mod_cast hij
  exact (div_lt_div_right h999).mpr (by nlinarith)

lemma linspace_mem_bounds {b : ℚ} (hb : 0 ≤ b) :
    ∀ q ∈ linspace 0 b 1000, 0 ≤ q ∧ q ≤ b := by
  intro q hq
  simp only [linspace, List.mem_map, List.mem_range] at hq
  obtain ⟨i, hi, rfl⟩ := hq
  have h999 : (0 : ℚ) < (1000 : ℚ) - 1 := by norm_num
  have hi' : (i : ℚ) ≤ (1000 : ℚ) - 1 := by
    have : (i : ℚ) < 1000 := by exact_mod_cast hi
    have : (i : ℚ) ≤ 999 := by
      have h2 : i ≤ 999 := by omega
      exact_mod_cast h2
    linarith
  have hi0 : (0 : ℚ) ≤ (i : ℚ) := by positivity
  constructor
  · simp only [linspaceF, zero_add, sub_zero]
    positivity
  · simp only [linspaceF, zero_add, sub_zero]
    push_cast
    rw [div_le_iff₀ (by norm_num : (0 : ℚ) < 1000 - 1)]
    nlinarith

lemma linspace_pairwise_lt {b : ℚ} (hb : 0 < b) :
    (linspace 0 b 1000).Pairwise (· < ·) := by
  rw [linspace, List.pairwise_map]
  exact (List.pairwise_lt_range 1000).imp (fun h => linspaceF_lt hb h)

lemma linspace_first (a b : ℚ) : (linspace a b 1000)[0]? = some a := by
  rw [linspace_getElem? a b (by norm_num)]
  simp [linspaceF]

lemma linspace_last {b : ℚ} : (linspace 0 b 1000).getLast? = some b := by
  rw [List.getLast?_eq_getElem?, linspace_length]
  rw [linspace_getElem? 0 b (by norm_num)]
  simp only [linspaceF, zero_add, sub_zero, Option.some.injEq]
  norm_num

/-- C5: for each system the reporting mesh `np.linspace(0, t_final, 1000)`
has exactly 1000 points, is strictly increasing, starts at 0 and ends at
`t_final`, consecutive points differ by `t_final/999` (even spacing), and
the trajectory (the solution sampled once per mesh point) has exactly 1000
state-vector samples whose first sample is the initial state. -/
theorem mesh_and_trajectory_shape :
    ((linspace 0 Incinerator.t_final 1000).length = 1000 ∧
     (linspace 0 MicroalgaeDroop.t_final 1000).length = 1000 ∧
     (linspace 0 TransportTruck.t_final 1000).length = 1000) ∧
    ((linspace 0 Incinerator.t_final 1000).Pairwise (· < ·) ∧
     (linspace 0 MicroalgaeDroop.t_final 1000).Pairwise (· < ·) ∧
     (linspace 0 TransportTruck.t_final 1000).Pairwise (· < ·)) ∧
    ((linspace 0 Incinerator.t_final 1000)[0]? = some 0 ∧
     (linspace 0 Incinerator.t_final 1000).getLast? = some Incinerator.t_final ∧
     (linspace 0 MicroalgaeDroop.t_final 1000)[0]? = some 0 ∧
     (linspace 0 MicroalgaeDroop.t_final 1000).getLast? = some MicroalgaeDroop.t_final ∧
     (linspace 0 TransportTruck.t_final 1000)[0]? = some 0 ∧
     (linspace 0 TransportTruck.t_final 1000).getLast? = some TransportTruck.t_final) ∧
    (∀ (b : ℚ) (i : ℕ), i + 1 < 1000 →
      linspaceF 0 b 1000 (i + 1) - linspaceF 0 b 1000 i = b / 999) ∧
    (∀ sol : ℚ → Fin 6 → ℚ, sol 0 = Incinerator.X_ini →
      (sampleTraj sol (linspace 0 Incinerator.t_final 1000)).length = 1000 ∧
      (sampleTraj sol (linspace 0 Incinerator.t_final 1000))[0]? =
        some (Incinerator.X_ini (K := ℚ))) ∧
    (∀ sol : ℚ → Fin 3 → ℚ, sol 0 = MicroalgaeDroop.X_ini →
      (sampleTraj sol (linspace 0 MicroalgaeDroop.t_final 1000)).length = 1000 ∧
      (sampleTraj sol (linspace 0 MicroalgaeDroop.t_final 1000))[0]? =
        some (MicroalgaeDroop.X_ini (K := ℚ))) ∧
    (∀ sol : ℚ → Fin 2 → ℚ, sol 0 = TransportTruck.X_ini →
      (sampleTraj sol (linspace 0 TransportTruck.t_final 1000)).length = 1000 ∧
      (sampleTraj sol (linspace 0 TransportTruck.t_final 1000))[0]? =
        some (TransportTruck.X_ini (K := ℚ))) := by
  have hfirst : ∀ (α : Type) (sol : ℚ → α) (b : ℚ),
      (sampleTraj sol (linspace 0 b 1000))[0]? = some (sol 0) := by
    intro α sol b
    rw [sampleTraj, List.getElem?_map, linspace_first]
    simp [linspaceF]
  refine ⟨⟨linspace_length _ _ _, linspace_length _ _ _, linspace_length _ _ _⟩,
    ⟨linspace_pairwise_lt (by norm_num [Incinerator.t_final]),
     linspace_pairwise_lt (by norm_num [MicroalgaeDroop.t_final]),
     linspace_pairwise_lt (by norm_num [TransportTruck.t_final])⟩,
    ⟨linspace_first _ _, linspace_last, linspace_first _ _, linspace_last,
     linspace_first _ _, linspace_last⟩, ?_, ?_, ?_, ?_⟩
  · intro b i hi
    simp only [linspaceF, zero_add, sub_zero]
    push_cast
    field_simp
    ring
  · intro sol hsol
    refine ⟨by simp [sampleTraj, linspace_length], ?_⟩
    rw [hfirst, hsol]
  · intro sol hsol
    refine ⟨by simp [sampleTraj, linspace_length], ?_⟩
    rw [hfirst, hsol]
  · intro sol hsol
    refine ⟨by simp [sampleTraj, linspace_length], ?_⟩
    rw [hfirst, hsol]

/-- Witness for C5: the theorem applied to the constant solutions at the
three initial states, and to the even-spacing conjunct at `i = 0`. -/
theorem mesh_and_trajectory_shape_witness :
    (sampleTraj (fun _ => Incinerator.X_ini (K := ℚ)) (linspace 0 Incinerator.t_final 1000))[0]? =
      some (Incinerator.X_ini (K := ℚ)) ∧
    (sampleTraj (fun _ => MicroalgaeDroop.X_ini (K := ℚ))
        (linspace 0 MicroalgaeDroop.t_final 1000))[0]? =
      some (MicroalgaeDroop.X_ini (K := ℚ)) ∧
    (sampleTraj (fun _ => TransportTruck.X_ini (K := ℚ))
        (linspace 0 TransportTruck.t_final 1000))[0]? =
      some (TransportTruck.X_ini (K := ℚ)) ∧
    linspaceF 0 15 1000 (0 + 1) - linspaceF 0 15 1000 0 = 15 / 999 :=
  ⟨(mesh_and_trajectory_shape.2.2.2.2.1 (fun _ => Incinerator.X_ini) rfl).2,
   (mesh_and_trajectory_shape.2.2.2.2.2.1 (fun _ => MicroalgaeDroop.X_ini) rfl).2,
   (mesh_and_trajectory_shape.2.2.2.2.2.2 (fun _ => TransportTruck.X_ini) rfl).2,
   mesh_and_trajectory_shape.2.2.2.1 15 0 (by decide)⟩

/-- C10: with `t_final = 0` the mesh `np.linspace(0, 0, 1000)` is 1000
copies of time 0, and the sampled trajectory of any solution starting at
the initial state is that initial state repeated 1000 times, for each of
the three parameterizations. -/
theorem t_final_zero_trajectory :
    linspace 0 0 1000 = List.replicate 1000 0 ∧
    (∀ sol : ℚ → Fin 6 → ℚ, sol 0 = Incinerator.X_ini →
      sampleTraj sol (linspace 0 0 1000) =
        List.replicate 1000 (Incinerator.X_ini (K := ℚ))) ∧
    (∀ sol : ℚ → Fin 3 → ℚ, sol 0 = MicroalgaeDroop.X_ini →
      sampleTraj sol (linspace 0 0 1000) =
        List.replicate 1000 (MicroalgaeDroop.X_ini (K := ℚ))) ∧
    (∀ sol : ℚ → Fin 2 → ℚ, sol 0 = TransportTruck.X_ini →
      sampleTraj sol (linspace 0 0 1000) =
        List.replicate 1000 (TransportTruck.X_ini (K := ℚ))) := by
  have hrep : linspace 0 0 1000 = List.replicate 1000 0 := by
    rw [List.eq_replicate_iff]
    refine ⟨linspace_length _ _ _, ?_⟩
    intro q hq
    simp only [linspace, List.mem_map, List.mem_range] at hq
    obtain ⟨i, _, rfl⟩ := hq
    simp [linspaceF]
  refine ⟨hrep, ?_, ?_, ?_⟩ <;>
    · intro sol hsol
      rw [sampleTraj, hrep, List.map_replicate, hsol]

/-- Witness for C10: the theorem applied to the constant solutions at the
three initial states. -/
theorem t_final_zero_trajectory_witness :
    sampleTraj (fun _ => Incinerator.X_ini (K := ℚ)) (linspace 0 0 1000) =
      List.replicate 1000 (Incinerator.X_ini (K := ℚ)) ∧
    sampleTraj (fun _ => MicroalgaeDroop.X_ini (K := ℚ)) (linspace 0 0 1000) =
      List.replicate 1000 (MicroalgaeDroop.X_ini (K := ℚ)) ∧
    sampleTraj (fun _ => TransportTruck.X_ini (K := ℚ)) (linspace 0 0 1000) =
      List.replicate 1000 (TransportTruck.X_ini (K := ℚ)) :=
  ⟨t_final_zero_trajectory.2.1 (fun _ => Incinerator.X_ini) rfl,
   t_final_zero_trajectory.2.2.1 (fun _ => MicroalgaeDroop.X_ini) rfl,
   t_final_zero_trajectory.2.2.2 (fun _ => TransportTruck.X_ini) rfl⟩

/-- Two real functions with the same derivative along `[a, b]` that agree
at `a` agree on all of `[a, b]`. -/
lemma eq_on_Icc_of_hasDerivAt {d f g : ℝ → ℝ} {a b : ℝ}
    (hf : ∀ t ∈ Icc a b, HasDerivAt f (d t) t)
    (hg : ∀ t ∈ Icc a b, HasDerivAt g (d t) t)
    (h0 : f a = g a) : ∀ t ∈ Icc a b, f t = g t :=
  eq_of_has_deriv_right_eq
    (fun x hx => (hf x (Ico_subset_Icc_self hx)).hasDerivWithinAt)
    (fun x hx => (hg x (Ico_subset_Icc_self hx)).hasDerivWithinAt)
    (fun x hx => (hf x hx).continuousAt.continuousWithinAt)
    (fun x hx => (hg x hx).continuousAt.continuousWithinAt) h0

/-- A function with constant derivative `c` on `[0, b]` starting at `x0`
is the linear function `x0 + c * t` there. -/
lemma linear_solution_of_deriv_const {c x0 b : ℝ} {f : ℝ → ℝ}
    (h0 : f 0 = x0) (hf : ∀ t ∈ Icc (0:ℝ) b, HasDerivAt f c t) :
    ∀ t ∈ Icc (0:ℝ) b, f t = x0 + c * t := by
  have hg : ∀ t ∈ Icc (0:ℝ) b, HasDerivAt (fun u : ℝ => x0 + c * u) c t := by
    intro t _
    simpa using ((hasDerivAt_id t).const_mul c).const_add x0
  exact eq_on_Icc_of_hasDerivAt hf hg (by simp [h0])

/-- Derivative of the constant-acceleration position profile. -/
lemma quadratic_hasDerivAt (p0 v0 k t : ℝ) :
    HasDerivAt (fun u : ℝ => p0 + v0 * u + (1/2) * k * u ^ 2) (v0 + k * t) t := by
  have h1 : HasDerivAt (fun u : ℝ => p0 + v0 * u) v0 t := by
    simpa using ((hasDerivAt_id t).const_mul v0).const_add p0
  have h2 : HasDerivAt (fun u : ℝ => (1/2) * k * u ^ 2) ((1/2) * k * (2 * t)) t := by
    simpa using (hasDerivAt_pow 2 t).const_mul ((1/2) * k)
  have h3 := h1.add h2
  convert h3 using 1
  ring

/-- C1: any solution of the truck initial value problem (position and speed
solving the `transportTruck` vector field with the script's initial
conditions) follows the constant-acceleration closed form
`position_ini + speed_ini*t + (1/2)*(F/m_total)*t^2` and
`speed_ini + (F/m_total)*t` at every `t` in `[0, 15]`; in particular every
reporting-mesh time lies in `[0, 15]` and there the sampled trajectory
matches the closed form within `1e-6` (the error is exactly zero). -/
theorem truck_exact_solution (p s : ℝ → ℝ)
    (hp0 : p 0 = TransportTruck.position_ini)
    (hs0 : s 0 = TransportTruck.speed_ini)
    (hp : ∀ t ∈ Icc (0:ℝ) 15,
      HasDerivAt p (TransportTruck.transportTruck ![p t, s t] t 0) t)
    (hs : ∀ t ∈ Icc (0:ℝ) 15,
      HasDerivAt s (TransportTruck.transportTruck ![p t, s t] t 1) t) :
    (∀ q ∈ linspace 0 TransportTruck.t_final 1000, 0 ≤ q ∧ q ≤ TransportTruck.t_final) ∧
    ∀ t ∈ Icc (0:ℝ) 15,
      (p t = TransportTruck.position_ini + TransportTruck.speed_ini * t +
          (1/2) * (TransportTruck.F / TransportTruck.m_total) * t ^ 2 ∧
        s t = TransportTruck.speed_ini + (TransportTruck.F / TransportTruck.m_total) * t) ∧
      |p t - (TransportTruck.position_ini + TransportTruck.speed_ini * t +
          (1/2) * (TransportTruck.F / TransportTruck.m_total) * t ^ 2)| ≤ 1 / 1000000 ∧
      |s t - (TransportTruck.speed_ini +
          (TransportTruck.F / TransportTruck.m_total) * t)| ≤ 1 / 1000000 := by
  constructor
  · exact linspace_mem_bounds (by norm_num [TransportTruck.t_final])
  · have hs' : ∀ t ∈ Icc (0:ℝ) 15,
        HasDerivAt s (TransportTruck.F / TransportTruck.m_total : ℝ) t := by
      intro t ht
      simpa [TransportTruck.transportTruck] using hs t ht
    have hsol_s := linear_solution_of_deriv_const hs0 hs'
    have hp' : ∀ t ∈ Icc (0:ℝ) 15,
        HasDerivAt p ((TransportTruck.speed_ini : ℝ) +
          (TransportTruck.F / TransportTruck.m_total) * t) t := by
      intro t ht
      have h := hp t ht
      simp only [TransportTruck.transportTruck, Matrix.cons_val_zero] at h
      rwa [hsol_s t ht] at h
    have hquad : ∀ t ∈ Icc (0:ℝ) 15,
        HasDerivAt (fun u : ℝ => TransportTruck.position_ini +
            TransportTruck.speed_ini * u +
            (1/2) * (TransportTruck.F / TransportTruck.m_total) * u ^ 2)
          ((TransportTruck.speed_ini : ℝ) +
            (TransportTruck.F / TransportTruck.m_total) * t) t :=
      fun t _ => quadratic_hasDerivAt _ _ _ t
    have hsol_p := eq_on_Icc_of_hasDerivAt hp' hquad (by simp [hp0])
    intro t ht
    refine ⟨⟨hsol_p t ht, hsol_s t ht⟩, ?_, ?_⟩
    · rw [hsol_p t ht]
      simp only [sub_self, abs_zero]
      norm_num
    · rw [hsol_s t ht]
      simp only [sub_self, abs_zero]
      norm_num

lemma truckSpeedSol_hasDerivAt (t : ℝ) :
    HasDerivAt
      (fun u : ℝ => TransportTruck.speed_ini +
        (TransportTruck.F / TransportTruck.m_total) * u)
      (TransportTruck.transportTruck
        ![TransportTruck.position_ini + TransportTruck.speed_ini * t +
            (1/2) * (TransportTruck.F / TransportTruck.m_total) * t ^ 2,
          TransportTruck.speed_ini + (TransportTruck.F / TransportTruck.m_total) * t]
        t 1) t := by
  simp only [TransportTruck.transportTruck, Matrix.cons_val_one, Matrix.head_cons]
  simpa using ((hasDerivAt_id t).const_mul
    ((TransportTruck.F : ℝ) / TransportTruck.m_total)).const_add
    (TransportTruck.speed_ini : ℝ)

lemma truckPosSol_hasDerivAt (t : ℝ) :
    HasDerivAt
      (fun u : ℝ => TransportTruck.position_ini + TransportTruck.speed_ini * u +
        (1/2) * (TransportTruck.F / TransportTruck.m_total) * u ^ 2)
      (TransportTruck.transportTruck
        ![TransportTruck.position_ini + TransportTruck.speed_ini * t +
            (1/2) * (TransportTruck.F / TransportTruck.m_total) * t ^ 2,
          TransportTruck.speed_ini + (TransportTruck.F / TransportTruck.m_total) * t]
        t 0) t := by
  simp only [TransportTruck.transportTruck, Matrix.cons_val_zero]
  exact quadratic_hasDerivAt _ _ _ t

/-- Witness for C1: the closed-form solution itself satisfies the
hypotheses, evaluated at `t = 15`. -/
theorem truck_exact_solution_witness :
    ((fun u : ℝ => TransportTruck.position_ini + TransportTruck.speed_ini * u +
        (1/2) * (TransportTruck.F / TransportTruck.m_total) * u ^ 2) 15 =
      TransportTruck.position_ini + TransportTruck.speed_ini * 15 +
        (1/2) * (TransportTruck.F / TransportTruck.m_total) * 15 ^ 2) ∧
    ((fun u : ℝ => TransportTruck.speed_ini +
        (TransportTruck.F / TransportTruck.m_total) * u) 15 =
      TransportTruck.speed_ini + (TransportTruck.F / TransportTruck.m_total) * 15) :=
  ((truck_exact_solution
      (fun u : ℝ => TransportTruck.position_ini + TransportTruck.speed_ini * u +
        (1/2) * (TransportTruck.F / TransportTruck.m_total) * u ^ 2)
      (fun u : ℝ => TransportTruck.speed_ini +
        (TransportTruck.F / TransportTruck.m_total) * u)
      (by simp [TransportTruck.position_ini])
      (by simp)
      (fun t _ => truckPosSol_hasDerivAt t)
      (fun t _ => truckSpeedSol_hasDerivAt t)).2 15 (by norm_num)).1

lemma incinerator_comp0 (X : Fin 6 → ℝ) (t : ℝ) : Incinerator.incinerator X t 0 = 20 := by
  show Incinerator.F_in - Incinerator.F_out - Incinerator.R_w = (20 : ℝ)
  norm_num [Incinerator.F_in, Incinerator.F_out, Incinerator.R_w]

lemma incinerator_comp1 (X : Fin 6 → ℝ) (t : ℝ) : Incinerator.incinerator X t 1 = 1 := by
  show -Incinerator.F_char_out + Incinerator.P_char - Incinerator.R_char = (1 : ℝ)
  norm_num [Incinerator.F_char_out, Incinerator.P_char, Incinerator.R_char]

lemma incinerator_comp3 (X : Fin 6 → ℝ) (t : ℝ) : Incinerator.incinerator X t 3 = 4 := by
  show Incinerator.F_aI - Incinerator.F_g_w_out + Incinerator.R_g = (4 : ℝ)
  norm_num [Incinerator.F_aI, Incinerator.F_g_w_out, Incinerator.R_g]

lemma incinerator_comp4 (X : Fin 6 → ℝ) (t : ℝ) : Incinerator.incinerator X t 4 = 3 := by
  show Incinerator.F_g_w_out - Incinerator.F_g_out + Incinerator.F_aII = (3 : ℝ)
  norm_num [Incinerator.F_g_w_out, Incinerator.F_g_out, Incinerator.F_aII]

/-- C3: the first component of the incinerator derivative is the constant
`F_in - F_out - R_w = 100 - 10 - 70 = 20` for every state and time, so any
solution of the waste-mass equation with the script's initial value
`M_ini = 0` is exactly `waste_mass(t) = 20*t` on `[0, t_final]`; every
reporting-mesh time lies in that interval. -/
theorem incinerator_waste_mass_linear :
    (∀ (X : Fin 6 → ℝ) (t : ℝ),
      Incinerator.incinerator X t 0 =
        Incinerator.F_in - Incinerator.F_out - Incinerator.R_w ∧
      Incinerator.incinerator X t 0 = 20) ∧
    (∀ q ∈ linspace 0 Incinerator.t_final 1000, 0 ≤ q ∧ q ≤ Incinerator.t_final) ∧
    ∀ Xf : ℝ → Fin 6 → ℝ, Xf 0 = Incinerator.X_ini →
      (∀ t ∈ Icc (0:ℝ) 180,
        HasDerivAt (fun u => Xf u 0) (Incinerator.incinerator (Xf t) t 0) t) →
      ∀ t ∈ Icc (0:ℝ) 180, Xf t 0 = 20 * t := by
  refine ⟨fun X t => ⟨rfl, incinerator_comp0 X t⟩,
    linspace_mem_bounds (by norm_num [Incinerator.t_final]), ?_⟩
  intro Xf h0 hderiv
  have h0' : (fun u => Xf u 0) 0 = 0 := by
    show Xf 0 0 = 0
    rw [h0]
    rfl
  have hd : ∀ t ∈ Icc (0:ℝ) 180, HasDerivAt (fun u => Xf u 0) 20 t := by
    intro t ht
    have h := hderiv t ht
    rwa [incinerator_comp0] at h
  have hsol := linear_solution_of_deriv_const h0' hd
  intro t ht
  simpa using hsol t ht

lemma incinWitTraj_init :
    (fun u : ℝ => (![20 * u, 1 * u, 20, 4 * u, 3 * u, 20] : Fin 6 → ℝ)) 0 =
      Incinerator.X_ini := by
  funext i
  fin_cases i <;>
    simp [Incinerator.X_ini, Incinerator.M_ini, Incinerator.M_char_ini,
      Incinerator.T_w_ini, Incinerator.M_g_w_ini, Incinerator.M_g_f_ini,
      Incinerator.T_g_ini]

lemma incinWit_comp0_deriv (t : ℝ) :
    HasDerivAt (fun u : ℝ => (![20 * u, 1 * u, 20, 4 * u, 3 * u, 20] : Fin 6 → ℝ) 0)
      (Incinerator.incinerator (![20 * t, 1 * t, 20, 4 * t, 3 * t, 20]) t 0) t := by
  rw [incinerator_comp0]
  have hfun : (fun u : ℝ => (![20 * u, 1 * u, 20, 4 * u, 3 * u, 20] : Fin 6 → ℝ) 0) =
      fun u : ℝ => 20 * u := rfl
  rw [hfun]
  simpa using (hasDerivAt_id t).const_mul (20 : ℝ)

lemma incinWit_comp1_deriv (t : ℝ) :
    HasDerivAt (fun u : ℝ => (![20 * u, 1 * u, 20, 4 * u, 3 * u, 20] : Fin 6 → ℝ) 1)
      (Incinerator.incinerator (![20 * t, 1 * t, 20, 4 * t, 3 * t, 20]) t 1) t := by
  rw [incinerator_comp1]
  have hfun : (fun u : ℝ => (![20 * u, 1 * u, 20, 4 * u, 3 * u, 20] : Fin 6 → ℝ) 1) =
      fun u : ℝ => 1 * u := rfl
  rw [hfun]
  simpa using (hasDerivAt_id t).const_mul (1 : ℝ)

lemma incinWit_comp3_deriv (t : ℝ) :
    HasDerivAt (fun u : ℝ => (![20 * u, 1 * u, 20, 4 * u, 3 * u, 20] : Fin 6 → ℝ) 3)
      (Incinerator.incinerator (![20 * t, 1 * t, 20, 4 * t, 3 * t, 20]) t 3) t := by
  rw [incinerator_comp3]
  have hfun : (fun u : ℝ => (![20 * u, 1 * u, 20, 4 * u, 3 * u, 20] : Fin 6 → ℝ) 3) =
      fun u : ℝ => 4 * u := rfl
  rw [hfun]
  simpa using (hasDerivAt_id t).const_mul (4 : ℝ)

lemma incinWit_comp4_deriv (t : ℝ) :
    HasDerivAt (fun u : ℝ => (![20 * u, 1 * u, 20, 4 * u, 3 * u, 20] : Fin 6 → ℝ) 4)
      (Incinerator.incinerator (![20 * t, 1 * t, 20, 4 * t, 3 * t, 20]) t 4) t := by
  rw [incinerator_comp4]
  have hfun : (fun u : ℝ => (![20 * u, 1 * u, 20, 4 * u, 3 * u, 20] : Fin 6 → ℝ) 4) =
      fun u : ℝ => 3 * u := rfl
  rw [hfun]
  simpa using (hasDerivAt_id t).const_mul (3 : ℝ)

/-- Witness for C3: the linear trajectory `[20u, u, 20, 4u, 3u, 20]`
satisfies the hypotheses; its waste-mass value at `t = 180` is `20*180`. -/
theorem incinerator_waste_mass_linear_witness :
    (fun u : ℝ => (![20 * u, 1 * u, 20, 4 * u, 3 * u, 20] : Fin 6 → ℝ)) 180 0 = 20 * 180 :=
  incinerator_waste_mass_linear.2.2
    (fun u : ℝ => ![20 * u, 1 * u, 20, 4 * u, 3 * u, 20])
    incinWitTraj_init (fun t _ => incinWit_comp0_deriv t) 180 (by norm_num)

/-- C9: components 0, 1, 3 and 4 of the incinerator derivative are the
constants `F_in - F_out - R_w = 20`, `-F_char_out + P_char - R_char = 1`,
`F_aI - F_g_w_out + R_g = 4` and `F_g_w_out - F_g_out + F_aII = 3`,
independent of state and time; hence with the zero initial values any
solution has `char_mass(t) = t`, `gas_mass_wastebed(t) = 4*t` and
`gas_mass_freeboard(t) = 3*t` on `[0, t_final]`. -/
theorem incinerator_constant_components :
    (∀ (X : Fin 6 → ℝ) (t : ℝ),
      (Incinerator.incinerator X t 0 =
          Incinerator.F_in - Incinerator.F_out - Incinerator.R_w ∧
        Incinerator.incinerator X t 0 = 20) ∧
      (Incinerator.incinerator X t 1 =
          -Incinerator.F_char_out + Incinerator.P_char - Incinerator.R_char ∧
        Incinerator.incinerator X t 1 = 1) ∧
      (Incinerator.incinerator X t 3 =
          Incinerator.F_aI - Incinerator.F_g_w_out + Incinerator.R_g ∧
        Incinerator.incinerator X t 3 = 4) ∧
      (Incinerator.incinerator X t 4 =
          Incinerator.F_g_w_out - Incinerator.F_g_out + Incinerator.F_aII ∧
        Incinerator.incinerator X t 4 = 3)) ∧
    ∀ Xf : ℝ → Fin 6 → ℝ, Xf 0 = Incinerator.X_ini →
      (∀ t ∈ Icc (0:ℝ) 180,
        HasDerivAt (fun u => Xf u 1) (Incinerator.incinerator (Xf t) t 1) t) →
      (∀ t ∈ Icc (0:ℝ) 180,
        HasDerivAt (fun u => Xf u 3) (Incinerator.incinerator (Xf t) t 3) t) →
      (∀ t ∈ Icc (0:ℝ) 180,
        HasDerivAt (fun u => Xf u 4) (Incinerator.incinerator (Xf t) t 4) t) →
      ∀ t ∈ Icc (0:ℝ) 180, Xf t 1 = t ∧ Xf t 3 = 4 * t ∧ Xf t 4 = 3 * t := by
  refine ⟨fun X t => ⟨⟨rfl, incinerator_comp0 X t⟩, ⟨rfl, incinerator_comp1 X t⟩,
    ⟨rfl, incinerator_comp3 X t⟩, ⟨rfl, incinerator_comp4 X t⟩⟩, ?_⟩
  intro Xf h0 hd1 hd3 hd4
  have h01 : (fun u => Xf u 1) 0 = 0 := by
    show Xf 0 1 = 0
    rw [h0]
    rfl
  have h03 : (fun u => Xf u 3) 0 = 0 := by
    show Xf 0 3 = 0
    rw [h0]
    rfl
  have h04 : (fun u => Xf u 4) 0 = 0 := by
    show Xf 0 4 = 0
    rw [h0]
    rfl
  have hc1 : ∀ t ∈ Icc (0:ℝ) 180, HasDerivAt (fun u => Xf u 1) 1 t := by
    intro t ht
    have h := hd1 t ht
    rwa [incinerator_comp1] at h
  have hc3 : ∀ t ∈ Icc (0:ℝ) 180, HasDerivAt (fun u => Xf u 3) 4 t := by
    intro t ht
    have h := hd3 t ht
    rwa [incinerator_comp3] at h
  have hc4 : ∀ t ∈ Icc (0:ℝ) 180, HasDerivAt (fun u => Xf u 4) 3 t := by
    intro t ht
    have h := hd4 t ht
    rwa [incinerator_comp4] at h
  have hs1 := linear_solution_of_deriv_const h01 hc1
  have hs3 := linear_solution_of_deriv_const h03 hc3
  have hs4 := linear_solution_of_deriv_const h04 hc4
  intro t ht
  refine ⟨by simpa using hs1 t ht, by simpa using hs3 t ht, by simpa using hs4 t ht⟩

/-- Witness for C9: the linear trajectory `[20u, u, 20, 4u, 3u, 20]`
satisfies the hypotheses; at `t = 180` its components 1, 3, 4 are
`180`, `4*180`, `3*180`. -/
theorem incinerator_constant_components_witness :
    (fun u : ℝ => (![20 * u, 1 * u, 20, 4 * u, 3 * u, 20] : Fin 6 → ℝ)) 180 1 = 180 ∧
    (fun u : ℝ => (![20 * u, 1 * u, 20, 4 * u, 3 * u, 20] : Fin 6 → ℝ)) 180 3 = 4 * 180 ∧
    (fun u : ℝ => (![20 * u, 1 * u, 20, 4 * u, 3 * u, 20] : Fin 6 → ℝ)) 180 4 = 3 * 180 :=
  incinerator_constant_components.2
    (fun u : ℝ => ![20 * u, 1 * u, 20, 4 * u, 3 * u, 20])
    incinWitTraj_init (fun t _ => incinWit_comp1_deriv t)
    (fun t _ => incinWit_comp3_deriv t) (fun t _ => incinWit_comp4_deriv t)
    180 (by norm_num)

/-- The directional derivative of the diagnostic `S + X_ALG*Q` along the
`microalgaeDroop` field is `(1/T_h)*(S_in - (S + X_ALG*Q))`, as an algebraic
identity in any characteristic-zero field, wherever the divisors `X 1` and
`X 2 + K_S` are nonzero. -/
lemma droopDiag_dot_relax {K : Type} [Field K] [CharZero K]
    (X : Fin 3 → K) (τ : K) (h1 : X 1 ≠ 0) (h2 : X 2 + MicroalgaeDroop.K_S ≠ 0) :
    MicroalgaeDroop.microalgaeDroop X τ 2 +
      MicroalgaeDroop.microalgaeDroop X τ 0 * X 1 +
      X 0 * MicroalgaeDroop.microalgaeDroop X τ 1 =
      (1 / MicroalgaeDroop.T_h) *
        (MicroalgaeDroop.S_in - (X 2 + X 0 * X 1)) := by
  have h2' : X 2 + 1 / 10 ≠ 0 := by
    simpa [MicroalgaeDroop.K_S] using h2
  simp only [MicroalgaeDroop.microalgaeDroop, MicroalgaeDroop.mu_tilde,
    MicroalgaeDroop.I, MicroalgaeDroop.I_bar, MicroalgaeDroop.K_sI,
    MicroalgaeDroop.K_iI, MicroalgaeDroop.k_q, MicroalgaeDroop.K_S,
    MicroalgaeDroop.rho_max, MicroalgaeDroop.T_h, MicroalgaeDroop.S_in,
    Matrix.cons_val_zero, Matrix.cons_val_one, Matrix.head_cons,
    Matrix.cons_val_two, Matrix.tail_cons]
  ring

/-- Uniqueness for the scalar first-order relaxation `f' = k*(L - f)` on
`[0, b]`: the solution with `f 0 = f0` is `L + (f0 - L)*exp(-(k*t))`. -/
lemma relaxation_unique {k L f0 b : ℝ} {f : ℝ → ℝ}
    (h0 : f 0 = f0)
    (hf : ∀ t ∈ Icc (0:ℝ) b, HasDerivAt f (k * (L - f t)) t) :
    ∀ t ∈ Icc (0:ℝ) b, f t = L + (f0 - L) * Real.exp (-(k * t)) := by
  have hexp : ∀ t : ℝ, HasDerivAt (fun u : ℝ => Real.exp (k * u))
      (Real.exp (k * t) * k) t := by
    intro t
    simpa using ((hasDerivAt_id t).const_mul k).exp
  have hu : ∀ t ∈ Icc (0:ℝ) b,
      HasDerivAt (fun u : ℝ => (f u - L) * Real.exp (k * u)) 0 t := by
    intro t ht
    have h1 : HasDerivAt (fun u : ℝ => f u - L) (k * (L - f t)) t :=
      (hf t ht).sub_const L
    have h2 := h1.mul (hexp t)
    convert h2 using 1
    ring
  have hconst : ∀ t ∈ Icc (0:ℝ) b,
      (fun u : ℝ => (f u - L) * Real.exp (k * u)) t =
      (fun u : ℝ => (f u - L) * Real.exp (k * u)) 0 :=
    constant_of_has_deriv_right_zero
      (fun t ht => (hu t ht).continuousAt.continuousWithinAt)
      (fun t ht => (hu t (Ico_subset_Icc_self ht)).hasDerivWithinAt)
  intro t ht
  have h3 : (f t - L) * Real.exp (k * t) = (f0 - L) * 1 := by
    simpa [h0] using hconst t ht
  have h4 : Real.exp (k * t) ≠ 0 := Real.exp_ne_zero _
  have h5 : f t - L = (f0 - L) / Real.exp (k * t) := by
    field_simp at h3 ⊢
    linarith [h3]
  rw [Real.exp_neg]
  rw [div_eq_mul_inv] at h5
  linarith [h5]

/-- C2: (i) for every state with `X 1 ≠ 0` and `X 2 ≠ -K_S`, the directional
derivative of the diagnostic `g(X) = S + X_ALG*Q` along the
`microalgaeDroop` vector field equals `(1/T_h)*(S_in - g(X))`; (ii) hence
along any solution curves, `S + X_ALG*Q` has derivative
`(1/T_h)*(S_in - (S + X_ALG*Q))` (a first-order relaxation toward
`S_in = 100` with time constant `T_h = 1/0.45`); (iii) with the script's
initial conditions `(26, 2.82, 0)` the diagnostic is exactly
`S_in + (g(0) - S_in)*exp(-t/T_h)` on `[0, t_final]`. -/
theorem droop_mass_balance_first_order :
    (∀ X : Fin 3 → ℚ, X 1 ≠ 0 → X 2 + MicroalgaeDroop.K_S ≠ 0 →
      MicroalgaeDroop.droopDiagDot X =
        (1 / MicroalgaeDroop.T_h) *
          (MicroalgaeDroop.S_in - MicroalgaeDroop.droopDiag X)) ∧
    (∀ (x q s : ℝ → ℝ) (t : ℝ),
      HasDerivAt x (MicroalgaeDroop.microalgaeDroop ![x t, q t, s t] t 0) t →
      HasDerivAt q (MicroalgaeDroop.microalgaeDroop ![x t, q t, s t] t 1) t →
      HasDerivAt s (MicroalgaeDroop.microalgaeDroop ![x t, q t, s t] t 2) t →
      q t ≠ 0 → s t + MicroalgaeDroop.K_S ≠ 0 →
      HasDerivAt (fun u => s u + x u * q u)
        (1 / MicroalgaeDroop.T_h *
          (MicroalgaeDroop.S_in - (s t + x t * q t))) t) ∧
    (∀ h : ℝ → ℝ,
      h 0 = MicroalgaeDroop.S_ini +
        MicroalgaeDroop.X_ALG_ini * MicroalgaeDroop.Q_ini →
      (∀ t ∈ Icc (0:ℝ) 15,
        HasDerivAt h
          (1 / MicroalgaeDroop.T_h * (MicroalgaeDroop.S_in - h t)) t) →
      ∀ t ∈ Icc (0:ℝ) 15,
        h t = MicroalgaeDroop.S_in +
          (MicroalgaeDroop.S_ini +
            MicroalgaeDroop.X_ALG_ini * MicroalgaeDroop.Q_ini -
            MicroalgaeDroop.S_in) *
            Real.exp (-(1 / MicroalgaeDroop.T_h * t))) := by
  refine ⟨?_, ?_, ?_⟩
  · intro X h1 h2
    exact droopDiag_dot_relax X 0 h1 h2
  · intro x q s t hx hq hs h1 h2
    have hd := hs.add (hx.mul hq)
    have key := droopDiag_dot_relax (K := ℝ) ![x t, q t, s t] t
      (by simpa using h1) (by simpa using h2)
    simp only [Matrix.cons_val_zero, Matrix.cons_val_one, Matrix.head_cons,
      Matrix.cons_val_two, Matrix.tail_cons] at key
    convert hd using 1
    linarith [key]
  · intro h h0 hode
    exact relaxation_unique h0 hode

lemma droopLinVec_eq :
    (![(fun u : ℝ => MicroalgaeDroop.X_ALG_ini +
          MicroalgaeDroop.microalgaeDroop MicroalgaeDroop.X_ini 0 0 * u) 0,
       (fun u : ℝ => MicroalgaeDroop.Q_ini +
          MicroalgaeDroop.microalgaeDroop MicroalgaeDroop.X_ini 0 1 * u) 0,
       (fun u : ℝ => MicroalgaeDroop.S_ini +
          MicroalgaeDroop.microalgaeDroop MicroalgaeDroop.X_ini 0 2 * u) 0] :
      Fin 3 → ℝ) = MicroalgaeDroop.X_ini := by
  funext i
  fin_cases i <;> simp [MicroalgaeDroop.X_ini]

lemma droopLin_x_hasDerivAt :
    HasDerivAt
      (fun u : ℝ => MicroalgaeDroop.X_ALG_ini +
        MicroalgaeDroop.microalgaeDroop MicroalgaeDroop.X_ini 0 0 * u)
      (MicroalgaeDroop.microalgaeDroop
        (![(fun u : ℝ => MicroalgaeDroop.X_ALG_ini +
              MicroalgaeDroop.microalgaeDroop MicroalgaeDroop.X_ini 0 0 * u) 0,
           (fun u : ℝ => MicroalgaeDroop.Q_ini +
              MicroalgaeDroop.microalgaeDroop MicroalgaeDroop.X_ini 0 1 * u) 0,
           (fun u : ℝ => MicroalgaeDroop.S_ini +
              MicroalgaeDroop.microalgaeDroop MicroalgaeDroop.X_ini 0 2 * u) 0])
        0 0) 0 := by
  rw [droopLinVec_eq]
  simpa using ((hasDerivAt_id (0:ℝ)).const_mul
    (MicroalgaeDroop.microalgaeDroop MicroalgaeDroop.X_ini 0 0)).const_add
    (MicroalgaeDroop.X_ALG_ini : ℝ)

lemma droopLin_q_hasDerivAt :
    HasDerivAt
      (fun u : ℝ => MicroalgaeDroop.Q_ini +
        MicroalgaeDroop.microalgaeDroop MicroalgaeDroop.X_ini 0 1 * u)
      (MicroalgaeDroop.microalgaeDroop
        (![(fun u : ℝ => MicroalgaeDroop.X_ALG_ini +
              MicroalgaeDroop.microalgaeDroop MicroalgaeDroop.X_ini 0 0 * u) 0,
           (fun u : ℝ => MicroalgaeDroop.Q_ini +
              MicroalgaeDroop.microalgaeDroop MicroalgaeDroop.X_ini 0 1 * u) 0,
           (fun u : ℝ => MicroalgaeDroop.S_ini +
              MicroalgaeDroop.microalgaeDroop MicroalgaeDroop.X_ini 0 2 * u) 0])
        0 1) 0 := by
  rw [droopLinVec_eq]
  simpa using ((hasDerivAt_id (0:ℝ)).const_mul
    (MicroalgaeDroop.microalgaeDroop MicroalgaeDroop.X_ini 0 1)).const_add
    (MicroalgaeDroop.Q_ini : ℝ)

lemma droopLin_s_hasDerivAt :
    HasDerivAt
      (fun u : ℝ => MicroalgaeDroop.S_ini +
        MicroalgaeDroop.microalgaeDroop MicroalgaeDroop.X_ini 0 2 * u)
      (MicroalgaeDroop.microalgaeDroop
        (![(fun u : ℝ => MicroalgaeDroop.X_ALG_ini +
              MicroalgaeDroop.microalgaeDroop MicroalgaeDroop.X_ini 0 0 * u) 0,
           (fun u : ℝ => MicroalgaeDroop.Q_ini +
              MicroalgaeDroop.microalgaeDroop MicroalgaeDroop.X_ini 0 1 * u) 0,
           (fun u : ℝ => MicroalgaeDroop.S_ini +
              MicroalgaeDroop.microalgaeDroop MicroalgaeDroop.X_ini 0 2 * u) 0])
        0 2) 0 := by
  rw [droopLinVec_eq]
  simpa using ((hasDerivAt_id (0:ℝ)).const_mul
    (MicroalgaeDroop.microalgaeDroop MicroalgaeDroop.X_ini 0 2)).const_add
    (MicroalgaeDroop.S_ini : ℝ)

lemma droopExpSol_hasDerivAt (t : ℝ) :
    HasDerivAt
      (fun u : ℝ => MicroalgaeDroop.S_in +
        (MicroalgaeDroop.S_ini +
          MicroalgaeDroop.X_ALG_ini * MicroalgaeDroop.Q_ini -
          MicroalgaeDroop.S_in) *
          Real.exp (-(1 / MicroalgaeDroop.T_h * u)))
      (1 / MicroalgaeDroop.T_h *
        (MicroalgaeDroop.S_in -
          (MicroalgaeDroop.S_in +
            (MicroalgaeDroop.S_ini +
              MicroalgaeDroop.X_ALG_ini * MicroalgaeDroop.Q_ini -
              MicroalgaeDroop.S_in) *
              Real.exp (-(1 / MicroalgaeDroop.T_h * t))))) t := by
  have hinner : HasDerivAt (fun u : ℝ => -(1 / MicroalgaeDroop.T_h * u))
      (-(1 / MicroalgaeDroop.T_h * 1)) t :=
    ((hasDerivAt_id t).const_mul (1 / MicroalgaeDroop.T_h)).neg
  have hexp := hinner.exp
  have h2 := (hexp.const_mul
    ((MicroalgaeDroop.S_ini : ℝ) +
      MicroalgaeDroop.X_ALG_ini * MicroalgaeDroop.Q_ini -
      MicroalgaeDroop.S_in)).const_add (MicroalgaeDroop.S_in : ℝ)
  convert h2 using 1
  ring

/-- Witness for C2: the identity holds at the script's initial state; the
tangent-line curves through the initial state satisfy the pointwise
solution hypotheses at `t = 0`; and the exponential relaxation itself
satisfies the scalar hypotheses, evaluated at `t = 15`. -/
theorem droop_mass_balance_first_order_witness :
    (MicroalgaeDroop.droopDiagDot (MicroalgaeDroop.X_ini (K := ℚ)) =
      (1 / MicroalgaeDroop.T_h) *
        (MicroalgaeDroop.S_in -
          MicroalgaeDroop.droopDiag (MicroalgaeDroop.X_ini (K := ℚ)))) ∧
    HasDerivAt
      (fun u : ℝ =>
        (fun u : ℝ => MicroalgaeDroop.S_ini +
          MicroalgaeDroop.microalgaeDroop MicroalgaeDroop.X_ini 0 2 * u) u +
        (fun u : ℝ => MicroalgaeDroop.X_ALG_ini +
          MicroalgaeDroop.microalgaeDroop MicroalgaeDroop.X_ini 0 0 * u) u *
        (fun u : ℝ => MicroalgaeDroop.Q_ini +
          MicroalgaeDroop.microalgaeDroop MicroalgaeDroop.X_ini 0 1 * u) u)
      (1 / MicroalgaeDroop.T_h *
        (MicroalgaeDroop.S_in -
          ((fun u : ℝ => MicroalgaeDroop.S_ini +
              MicroalgaeDroop.microalgaeDroop MicroalgaeDroop.X_ini 0 2 * u) 0 +
            (fun u : ℝ => MicroalgaeDroop.X_ALG_ini +
              MicroalgaeDroop.microalgaeDroop MicroalgaeDroop.X_ini 0 0 * u) 0 *
            (fun u : ℝ => MicroalgaeDroop.Q_ini +
              MicroalgaeDroop.microalgaeDroop MicroalgaeDroop.X_ini 0 1 * u) 0))) 0 ∧
    ((fun u : ℝ => MicroalgaeDroop.S_in +
        (MicroalgaeDroop.S_ini +
          MicroalgaeDroop.X_ALG_ini * MicroalgaeDroop.Q_ini -
          MicroalgaeDroop.S_in) *
          Real.exp (-(1 / MicroalgaeDroop.T_h * u))) 15 =
      MicroalgaeDroop.S_in +
        (MicroalgaeDroop.S_ini +
          MicroalgaeDroop.X_ALG_ini * MicroalgaeDroop.Q_ini -
          MicroalgaeDroop.S_in) *
          Real.exp (-(1 / MicroalgaeDroop.T_h * 15))) :=
  ⟨droop_mass_balance_first_order.1 MicroalgaeDroop.X_ini
     (by norm_num [MicroalgaeDroop.X_ini, MicroalgaeDroop.Q_ini])
     (by norm_num [MicroalgaeDroop.X_ini, MicroalgaeDroop.S_ini, MicroalgaeDroop.K_S]),
   droop_mass_balance_first_order.2.1
     (fun u : ℝ => MicroalgaeDroop.X_ALG_ini +
       MicroalgaeDroop.microalgaeDroop MicroalgaeDroop.X_ini 0 0 * u)
     (fun u : ℝ => MicroalgaeDroop.Q_ini +
       MicroalgaeDroop.microalgaeDroop MicroalgaeDroop.X_ini 0 1 * u)
     (fun u : ℝ => MicroalgaeDroop.S_ini +
       MicroalgaeDroop.microalgaeDroop MicroalgaeDroop.X_ini 0 2 * u)
     0 droopLin_x_hasDerivAt droopLin_q_hasDerivAt droopLin_s_hasDerivAt
     (by norm_num [MicroalgaeDroop.Q_ini])
     (by norm_num [MicroalgaeDroop.S_ini, MicroalgaeDroop.K_S]),
   droop_mass_balance_first_order.2.2
     (fun u : ℝ => MicroalgaeDroop.S_in +
       (MicroalgaeDroop.S_ini +
         MicroalgaeDroop.X_ALG_ini * MicroalgaeDroop.Q_ini -
         MicroalgaeDroop.S_in) *
         Real.exp (-(1 / MicroalgaeDroop.T_h * u)))
     (by simp)
     (fun t _ => droopExpSol_hasDerivAt t) 15 (by norm_num)⟩

/-- Counterexample for C4: a solver result whose internal step count
exceeded the ceiling (excess-work diagnostic) still has its trajectory
used for plotting -- the scripts never read `infodict`, so the run does
not fail and the unreliable trajectory is plotted. -/
theorem odeint_failure_used_for_plotting :
    overrunOutput.message ≠ successMessage ∧
    plottedColumns overrunOutput 0 =
      [Incinerator.X_ini (K := ℚ) 0] ∧
    plottedColumns overrunOutput 0 ≠ [] := by
  refine ⟨?_, rfl, ?_⟩
  · decide
  · intro h
    exact List.cons_ne_nil _ _ h

/-- C4 (amended): the plotted output is a function of the trajectory array
alone; the step-ceiling failure is recorded only in the ignored `infodict`
message, so a failed run plots exactly what a successful run with the same
trajectory array would plot. -/
theorem odeint_failure_not_surfaced :
    (∀ (n : ℕ) (o o' : OdeintFullOutput (Fin n → ℚ)),
      o.trajectory = o'.trajectory → plottedColumns o = plottedColumns o') ∧
    (∀ (n : ℕ) (o : OdeintFullOutput (Fin n → ℚ)),
      plottedColumns o = plottedColumns ⟨o.trajectory, successMessage⟩) := by
  constructor
  · intro n o o' h
    funext i
    simp [plottedColumns, h]
  · intro n o
    rfl

/-- Witness for C4 (amended): the overrun output plots the same series as
the corresponding successful output. -/
theorem odeint_failure_not_surfaced_witness :
    plottedColumns overrunOutput =
      plottedColumns
        (⟨[Incinerator.X_ini], successMessage⟩ : OdeintFullOutput (Fin 6 → ℚ)) :=
  odeint_failure_not_surfaced.1 6 overrunOutput
    ⟨[Incinerator.X_ini], successMessage⟩ rfl
